import Mathlib

/-!
Verification of the symx artifact-pipeline metadata layer.

This file gives a shallow embedding of the metadata data model and the
operations of the symx repository (src/symx/_ota/__init__.py,
src/symx/_common.py, src/symx/_ota/storage/gcs.py,
src/symx/_ipsw/storage/gcs.py, src/symx/_ipsw/runners.py) and proves the
behavioural claims about them.

Modelling conventions:
- Python dicts are insertion-ordered maps; they are embedded as association
  lists (`PyDict`) where assignment updates the first matching key in place
  and appends fresh keys at the end, exactly like CPython dicts.
- `list(set(a + b))` (used by `merge_lists` in the source) produces a list
  with unspecified order whose identity is the set of its elements, so the
  `devices` and `description` fields are embedded as `Finset String`.
- Code that raises `RuntimeError` / `ValueError` is embedded in `Except
  String`.
- The GCS object store is embedded as a key-to-MD5 association list; blob
  existence is key membership.  Network success flags that are external to
  the program logic (download retries, hash checks of downloaded bytes) are
  passed as explicit booleans.
-/

/-- The processing states of `symx._common.ArtifactProcessingState`. -/
inductive ArtifactProcessingState where
  | INDEXED
  | INDEXED_DUPLICATE
  | INDEXED_INVALID
  | MIRRORED
  | MIRRORING_FAILED
  | MIRROR_CORRUPT
  | DSC_EXTRACTED
  | DSC_EXTRACTION_FAILED
  | SYMBOLS_EXTRACTED
  | SYMBOL_EXTRACTION_FAILED
  | BUNDLE_DUPLICATION_DETECTED
  | IGNORED
  deriving DecidableEq

/-- The `OtaArtifact` dataclass of `symx._ota`.  The `devices` and
`description` fields are sets (the source merges them through
`list(set(a + b))`, whose order is unspecified). -/
structure OtaArtifact where
  build : String
  description : Finset String
  version : String
  platform : String
  id : String
  url : String
  download_path : Option String
  devices : Finset String
  hash : String
  hash_algorithm : String
  last_run : Int
  processing_state : ArtifactProcessingState
  deriving DecidableEq

/-- Association-list embedding of a CPython `dict` (insertion ordered). -/
abbrev PyDict (α : Type) : Type := List (String × α)

namespace PyDict

/-- Dict lookup `d[k]`, returning the first binding for `k`. -/
def dget {α : Type} : PyDict α → String → Option α
  | [], _ => none
  | (k', v) :: t, k => if k' = k then some v else dget t k

/-- Membership test `k in d`. -/
def dmem {α : Type} (m : PyDict α) (k : String) : Bool :=
  (dget m k).isSome

/-- Assignment `d[k] = v`: replaces the first binding in place, appends a
fresh key at the end (CPython dict semantics). -/
def dset {α : Type} : PyDict α → String → α → PyDict α
  | [], k, v => [(k, v)]
  | (k', v') :: t, k, v =>
      if k' = k then (k', v) :: t else (k', v') :: dset t k v

/-- The key column of the dict. -/
def dkeys {α : Type} (m : PyDict α) : List String :=
  m.map Prod.fst

/-- Length of the dict as a list of bindings. -/
def dlen {α : Type} (m : PyDict α) : Nat := m.length

theorem dget_dset_self {α : Type} (m : PyDict α) (k : String) (v : α) :
    dget (dset m k v) k = some v := by
  induction m with
  | nil => simp [dget, dset]
  | cons h t ih =>
      obtain ⟨k', v'⟩ := h
      by_cases hk : k' = k
      · simp [dget, dset, hk]
      · simp [dget, dset, hk, ih]

theorem dget_dset_ne {α : Type} (m : PyDict α) (k k' : String) (v : α)
    (h : k' ≠ k) : dget (dset m k v) k' = dget m k' := by
  have h' : ¬ k = k' := fun hh => h hh.symm
  induction m with
  | nil => simp [dget, dset, h']
  | cons hd t ih =>
      obtain ⟨k₀, v₀⟩ := hd
      by_cases hk : k₀ = k
      · subst hk
        simp [dget, dset, h']
      · simp only [dset, if_neg hk]
        by_cases hk' : k₀ = k'
        · simp [dget, hk']
        · simp [dget, hk', ih]

theorem dset_eq_of_dget {α : Type} (m : PyDict α) (k : String) (v : α)
    (h : dget m k = some v) : dset m k v = m := by
  induction m with
  | nil => simp [dget] at h
  | cons hd t ih =>
      obtain ⟨k₀, v₀⟩ := hd
      by_cases hk : k₀ = k
      · subst hk
        simp [dget] at h
        simp [dset, h]
      · simp [dget, hk] at h
        simp [dset, hk, ih h]

theorem mem_of_dget {α : Type} (m : PyDict α) (k : String) (v : α)
    (h : dget m k = some v) : (k, v) ∈ m := by
  induction m with
  | nil => simp [dget] at h
  | cons hd t ih =>
      obtain ⟨k₀, v₀⟩ := hd
      by_cases hk : k₀ = k
      · subst hk
        simp [dget] at h
        simp [h]
      · simp [dget, hk] at h
        exact List.mem_cons_of_mem _ (ih h)

theorem mem_dkeys_of_dmem {α : Type} (m : PyDict α) (k : String)
    (h : dmem m k = true) : k ∈ dkeys m := by
  unfold dmem at h
  obtain ⟨v, hv⟩ := Option.isSome_iff_exists.mp h
  have hmem := mem_of_dget m k v hv
  unfold dkeys
  exact List.mem_map_of_mem Prod.fst hmem

theorem dget_of_not_dmem {α : Type} (m : PyDict α) (k : String)
    (h : ¬ dmem m k = true) : dget m k = none := by
  unfold dmem at h
  cases hg : dget m k with
  | none => rfl
  | some v => rw [hg] at h; simp at h

theorem dmem_dset {α : Type} (m : PyDict α) (k k' : String) (v : α) :
    dmem (dset m k v) k' = (dmem m k' || (k' = k)) := by
  by_cases h : k' = k
  · subst h
    simp [dmem, dget_dset_self]
  · simp [dmem, dget_dset_ne m k k' v h, h]

end PyDict

export PyDict (dget dmem dset dkeys dlen)

/-- Little-endian decimal digits with explicit fuel (the fuel `n` always
suffices because `n / 10 < n` for positive `n`). -/
def natDigitsAux : Nat → Nat → List Nat
  | 0, _ => []
  | fuel + 1, n => if n = 0 then [] else (n % 10) :: natDigitsAux fuel (n / 10)

/-- Little-endian decimal digits of a natural number. -/
def natDigits (n : Nat) : List Nat := natDigitsAux n n

/-- Evaluation of a little-endian digit list back to a number. -/
def unDigits : List Nat → Nat
  | [] => 0
  | d :: ds => d + 10 * unDigits ds

theorem unDigits_natDigitsAux :
    ∀ fuel n : Nat, n ≤ fuel → unDigits (natDigitsAux fuel n) = n := by
  intro fuel
  induction fuel with
  | zero => intro n h; interval_cases n; simp [natDigitsAux, unDigits]
  | succ f ih =>
      intro n h
      by_cases hn : n = 0
      · simp [natDigitsAux, hn, unDigits]
      · have hdiv : n / 10 ≤ f := by
          have : n / 10 < n := Nat.div_lt_self (Nat.pos_of_ne_zero hn) (by omega)
          omega
        simp only [natDigitsAux, if_neg hn, unDigits, ih _ hdiv]
        omega

theorem unDigits_natDigits (n : Nat) : unDigits (natDigits n) = n :=
  unDigits_natDigitsAux n n (Nat.le_refl n)

theorem natDigits_injective : Function.Injective natDigits := by
  intro a b h
  have := unDigits_natDigits a
  rw [h, unDigits_natDigits] at this
  omega

theorem natDigitsAux_lt_ten :
    ∀ fuel n : Nat, ∀ d ∈ natDigitsAux fuel n, d < 10 := by
  intro fuel
  induction fuel with
  | zero => intro n d h; simp [natDigitsAux] at h
  | succ f ih =>
      intro n d h
      by_cases hn : n = 0
      · simp [natDigitsAux, hn] at h
      · simp only [natDigitsAux, if_neg hn, List.mem_cons] at h
        rcases h with h | h
        · omega
        · exact ih _ d h

theorem natDigits_lt_ten (n : Nat) : ∀ d ∈ natDigits n, d < 10 :=
  natDigitsAux_lt_ten n n

/-- Decimal digit to character, as Python `str` renders digits. -/
def digitChr : Nat → Char
  | 0 => '0'
  | 1 => '1'
  | 2 => '2'
  | 3 => '3'
  | 4 => '4'
  | 5 => '5'
  | 6 => '6'
  | 7 => '7'
  | 8 => '8'
  | 9 => '9'
  | _ => '?'

theorem digitChr_inj_lt (a b : Nat) (ha : a < 10) (hb : b < 10)
    (h : digitChr a = digitChr b) : a = b := by
  interval_cases a <;> interval_cases b <;> revert h <;> decide

theorem map_digitChr_inj :
    ∀ l₁ l₂ : List Nat, (∀ d ∈ l₁, d < 10) → (∀ d ∈ l₂, d < 10) →
      l₁.map digitChr = l₂.map digitChr → l₁ = l₂ := by
  intro l₁
  induction l₁ with
  | nil => intro l₂ _ _ h; cases l₂ <;> simp_all
  | cons a t ih =>
      intro l₂ h₁ h₂ h
      cases l₂ with
      | nil => simp at h
      | cons b t₂ =>
          simp only [List.map_cons, List.cons.injEq] at h
          have hab : a = b :=
            digitChr_inj_lt a b (h₁ a (by simp)) (h₂ b (by simp)) h.1
          have ht : t = t₂ :=
            ih t₂ (fun d hd => h₁ d (by simp [hd]))
              (fun d hd => h₂ d (by simp [hd])) h.2
          rw [hab, ht]

/-- Embedding of Python `str(n)` for a natural number (decimal rendering). -/
def natStr (n : Nat) : String :=
  if n = 0 then "0" else String.mk ((natDigits n).reverse.map digitChr)

theorem natStr_injective : Function.Injective natStr := by
  intro a b h
  unfold natStr at h
  by_cases ha : a = 0 <;> by_cases hb : b = 0
  · omega
  · exfalso
    rw [if_pos ha, if_neg hb] at h
    have hdata : ['0'] = ((natDigits b).reverse.map digitChr) := by
      have := congrArg String.data h
      simpa using this
    have : (natDigits b).reverse = [0] := by
      have h0 : ([0] : List Nat).map digitChr = [digitChr 0] := by simp
      apply map_digitChr_inj
      · intro d hd
        have := natDigits_lt_ten b
        simp at hd
        exact this d (List.mem_reverse.mp (by simp [hd]))
      · intro d hd; simp at hd; omega
      · simpa [digitChr] using hdata.symm
    have hb0 : natDigits b = [0] := by
      have := congrArg List.reverse this
      simpa using this
    have := unDigits_natDigits b
    rw [hb0] at this
    simp [unDigits] at this
    omega
  · exfalso
    rw [if_neg ha, if_pos hb] at h
    have hdata : ((natDigits a).reverse.map digitChr) = ['0'] := by
      have := congrArg String.data h
      simpa using this
    have : (natDigits a).reverse = [0] := by
      apply map_digitChr_inj
      · intro d hd
        have := natDigits_lt_ten a
        simp at hd
        exact this d (List.mem_reverse.mp (by simp [hd]))
      · intro d hd; simp at hd; omega
      · simpa [digitChr] using hdata
    have ha0 : natDigits a = [0] := by
      have := congrArg List.reverse this
      simpa using this
    have := unDigits_natDigits a
    rw [ha0] at this
    simp [unDigits] at this
    omega
  · rw [if_neg ha, if_neg hb] at h
    have hdata := congrArg String.data h
    simp only [String.data] at hdata
    have hrev : (natDigits a).reverse = (natDigits b).reverse := by
      apply map_digitChr_inj
      · intro d hd
        exact natDigits_lt_ten a d (List.mem_reverse.mp hd)
      · intro d hd
        exact natDigits_lt_ten b d (List.mem_reverse.mp hd)
      · simpa using hdata
    have : natDigits a = natDigits b := by
      have := congrArg List.reverse hrev
      simpa using this
    exact natDigits_injective this

/-- The OTA metadata document: a dict from keys to artifacts
(`OtaMetaData = dict[str, OtaArtifact]` in `symx._ota`). -/
abbrev OtaMetaData : Type := PyDict OtaArtifact

/-- Embedding of `merge_lists` of `symx._ota`: `list(set(a + b))`, i.e. set union of the
two element collections (the produced list order is unspecified in Python,
so the embedding works with the underlying sets). -/
def merge_lists (a b : Finset String) : Finset String := a ∪ b

/-- The build-only-difference condition of `merge_meta_data` (lines
230-237): all identity-contributing fields equal except a differing
`build`. -/
def dupCond (their_item our_item : OtaArtifact) : Bool :=
  their_item.build != our_item.build &&
  their_item.version == our_item.version &&
  their_item.platform == our_item.platform &&
  their_item.url == our_item.url &&
  their_item.hash == our_item.hash &&
  their_item.hash_algorithm == our_item.hash_algorithm

/-- The full identity-equality condition of `merge_meta_data` (lines
245-252). -/
def identityMatch (their_item our_item : OtaArtifact) : Bool :=
  their_item.build == our_item.build &&
  their_item.version == our_item.version &&
  their_item.platform == our_item.platform &&
  their_item.url == our_item.url &&
  their_item.hash == our_item.hash &&
  their_item.hash_algorithm == our_item.hash_algorithm

/-- The beta/release payload-equality condition used for fresh keys
(`merge_meta_data` lines 262-268): same hash, hash algorithm, platform and
version but a different build.  Note the source does not compare `url`
here. -/
def betaDupCond (their_item our_v : OtaArtifact) : Bool :=
  their_item.hash == our_v.hash &&
  their_item.hash_algorithm == our_v.hash_algorithm &&
  their_item.platform == our_v.platform &&
  their_item.version == our_v.version &&
  their_item.build != our_v.build

/-- The candidate key `f"{their_key}_duplicate_{duplicate_num}"` of
`generate_duplicate_key_from`. -/
def dupKeyCand (their_key : String) (n : Nat) : String :=
  their_key ++ "_duplicate_" ++ natStr n

/-- The `while key_candidate in ours.keys()` search of
`generate_duplicate_key_from`.  The fuel `ours.length + 1` is exact: the
candidates are pairwise distinct, so at most `ours.length` of them can
collide with existing keys and the Python loop terminates within that many
steps. -/
def genDupKeyGo (ours : OtaMetaData) (their_key : String) :
    Nat → Nat → String
  | 0, n => dupKeyCand their_key n
  | fuel + 1, n =>
      if dmem ours (dupKeyCand their_key n) then
        genDupKeyGo ours their_key fuel (n + 1)
      else
        dupKeyCand their_key n

/-- Embedding of `generate_duplicate_key_from` of `symx._ota`. -/
def generate_duplicate_key_from (ours : OtaMetaData) (their_key : String) :
    String :=
  genDupKeyGo ours their_key (ours.length + 1) 1

/-- The update of `ours[their_key]` with merged `description` and `devices`
(`merge_meta_data` lines 221-222): every other field of the stored item is
kept. -/
def mergedArtifact (our_item their_item : OtaArtifact) : OtaArtifact :=
  { our_item with
    description := merge_lists our_item.description their_item.description
    devices := merge_lists our_item.devices their_item.devices }

/-- Setting `processing_state = INDEXED_DUPLICATE` on an incoming item. -/
def markDuplicate (their_item : OtaArtifact) : OtaArtifact :=
  { their_item with
    processing_state := ArtifactProcessingState.INDEXED_DUPLICATE }

/-- One iteration of the `for their_key, their_item in theirs.items()` loop
body of `merge_meta_data` (lines 215-270), in the `Except` monad standing
for `raise RuntimeError`. -/
def merge_step (ours : OtaMetaData) (their_key : String)
    (their_item : OtaArtifact) : Except String OtaMetaData :=
  match PyDict.dget ours their_key with
  | some our_item =>
      let ours₁ := dset ours their_key (mergedArtifact our_item their_item)
      if dupCond their_item our_item then
        let duplicate_key := generate_duplicate_key_from ours₁ their_key
        .ok (dset ours₁ duplicate_key (markDuplicate their_item))
      else if !(identityMatch their_item our_item) then
        .error ("Matching keys with different value: " ++ their_key)
      else
        .ok ours₁
  | none =>
      let ours₁ := dset ours their_key their_item
      if ours₁.any (fun kv => betaDupCond their_item kv.2) then
        .ok (dset ours₁ their_key (markDuplicate their_item))
      else
        .ok ours₁

/-- Embedding of `merge_meta_data` of `symx._ota`: fold of `merge_step` over the items of
`theirs` in dict (insertion) order, mutating `ours`. -/
def merge_meta_data (ours : OtaMetaData) :
    List (String × OtaArtifact) → Except String OtaMetaData
  | [] => .ok ours
  | (their_key, their_item) :: rest => do
      let ours₁ ← merge_step ours their_key their_item
      merge_meta_data ours₁ rest

theorem string_append_left_cancel (s t u : String) (h : s ++ t = s ++ u) :
    t = u := by
  have hd : (s ++ t).data = (s ++ u).data := by rw [h]
  simp [String.data_append] at hd
  exact String.ext hd

theorem dupKeyCand_injective (k : String) :
    Function.Injective (dupKeyCand k) := by
  intro n₁ n₂ h
  unfold dupKeyCand at h
  have h₁ := string_append_left_cancel (k ++ "_duplicate_") _ _ h
  exact natStr_injective h₁

theorem genDupKeyGo_free (ours : OtaMetaData) (k : String) :
    ∀ fuel n : Nat,
      (∃ j, j < fuel ∧ dmem ours (dupKeyCand k (n + j)) = false) →
      dmem ours (genDupKeyGo ours k fuel n) = false := by
  intro fuel
  induction fuel with
  | zero =>
      intro n h
      obtain ⟨j, hj, _⟩ := h
      omega
  | succ f ih =>
      intro n h
      by_cases hmem : dmem ours (dupKeyCand k n) = true
      · simp only [genDupKeyGo, hmem, if_true]
        apply ih
        obtain ⟨j, hj, hfree⟩ := h
        cases j with
        | zero =>
            rw [Nat.add_zero] at hfree
            rw [hfree] at hmem
            cases hmem
        | succ j' =>
            refine ⟨j', by omega, ?_⟩
            have : n + 1 + j' = n + (j' + 1) := by omega
            rw [this]
            exact hfree
      · simp only [genDupKeyGo]
        rw [if_neg hmem]
        simpa using hmem

theorem exists_free_dupKeyCand (ours : OtaMetaData) (k : String) :
    ∃ j, j < ours.length + 1 ∧ dmem ours (dupKeyCand k (1 + j)) = false := by
  by_contra hall
  push_neg at hall
  have hmem : ∀ j, j < ours.length + 1 → dmem ours (dupKeyCand k (1 + j)) = true := by
    intro j hj
    have := hall j hj
    cases hb : dmem ours (dupKeyCand k (1 + j))
    · exact absurd hb this
    · rfl
  have hcard : (Finset.range (ours.length + 1)).card ≤
      (dkeys ours).toFinset.card := by
    apply Finset.card_le_card_of_injOn (fun j => dupKeyCand k (1 + j))
    · intro j hj
      simp only [Finset.mem_range] at hj
      simp only [List.mem_toFinset]
      exact PyDict.mem_dkeys_of_dmem ours _ (hmem j hj)
    · intro j₁ _ j₂ _ he
      have := dupKeyCand_injective k he
      omega
  have h₁ : (dkeys ours).toFinset.card ≤ (dkeys ours).length :=
    (dkeys ours).toFinset_card_le
  have h₂ : (dkeys ours).length = ours.length := List.length_map _ _
  rw [Finset.card_range] at hcard
  omega

theorem generate_duplicate_key_fresh (ours : OtaMetaData) (k : String) :
    dget ours (generate_duplicate_key_from ours k) = none := by
  apply PyDict.dget_of_not_dmem
  have hfree := genDupKeyGo_free ours k (ours.length + 1) 1
    (exists_free_dupKeyCand ours k)
  unfold generate_duplicate_key_from
  simp [hfree]

/-- All fields of an `OtaArtifact` other than the merged `description` and
`devices` collections, bundled for frame reasoning. -/
def nonMergedFields (a : OtaArtifact) :
    String × String × String × String × String × Option String × String ×
    String × Int × ArtifactProcessingState :=
  (a.build, a.version, a.platform, a.id, a.url, a.download_path, a.hash,
   a.hash_algorithm, a.last_run, a.processing_state)

theorem merge_step_some_dup (ours : OtaMetaData) (k₁ : String)
    (v₁ a : OtaArtifact) (hg : dget ours k₁ = some a)
    (hd : dupCond v₁ a = true) :
    merge_step ours k₁ v₁ =
      .ok (dset (dset ours k₁ (mergedArtifact a v₁))
        (generate_duplicate_key_from (dset ours k₁ (mergedArtifact a v₁)) k₁)
        (markDuplicate v₁)) := by
  simp [merge_step, hg, hd]

theorem merge_step_some_match (ours : OtaMetaData) (k₁ : String)
    (v₁ a : OtaArtifact) (hg : dget ours k₁ = some a)
    (hd : dupCond v₁ a = false) (hi : identityMatch v₁ a = true) :
    merge_step ours k₁ v₁ = .ok (dset ours k₁ (mergedArtifact a v₁)) := by
  simp [merge_step, hg, hd, hi]

theorem merge_step_some_err (ours : OtaMetaData) (k₁ : String)
    (v₁ a : OtaArtifact) (hg : dget ours k₁ = some a)
    (hd : dupCond v₁ a = false) (hi : identityMatch v₁ a = false) :
    merge_step ours k₁ v₁ =
      .error ("Matching keys with different value: " ++ k₁) := by
  simp [merge_step, hg, hd, hi]

theorem merge_step_none_hit (ours : OtaMetaData) (k₁ : String)
    (v₁ : OtaArtifact) (hg : dget ours k₁ = none)
    (hb : (dset ours k₁ v₁).any (fun kv => betaDupCond v₁ kv.2) = true) :
    merge_step ours k₁ v₁ =
      .ok (dset (dset ours k₁ v₁) k₁ (markDuplicate v₁)) := by
  simp [merge_step, hg, hb]

theorem merge_step_none_miss (ours : OtaMetaData) (k₁ : String)
    (v₁ : OtaArtifact) (hg : dget ours k₁ = none)
    (hb : (dset ours k₁ v₁).any (fun kv => betaDupCond v₁ kv.2) = false) :
    merge_step ours k₁ v₁ = .ok (dset ours k₁ v₁) := by
  simp [merge_step, hg, hb]

theorem merge_step_preserve_ne (ours ours' : OtaMetaData) (k₁ : String)
    (v₁ : OtaArtifact) (hok : merge_step ours k₁ v₁ = .ok ours')
    (k : String) (hk : k ≠ k₁) :
    dget ours' k = dget ours k ∨
      (dget ours k = none ∧ dget ours' k = some (markDuplicate v₁)) := by
  cases hg : dget ours k₁ with
  | some a =>
      by_cases hd : dupCond v₁ a = true
      · rw [merge_step_some_dup ours k₁ v₁ a hg hd] at hok
        have hok' := Except.ok.inj hok
        subst hok'
        set ours₁ := dset ours k₁ (mergedArtifact a v₁) with hours₁
        have hfresh : dget ours₁ (generate_duplicate_key_from ours₁ k₁) = none :=
          generate_duplicate_key_fresh ours₁ k₁
        by_cases hdk : k = generate_duplicate_key_from ours₁ k₁
        · right
          constructor
          · rw [← PyDict.dget_dset_ne ours k₁ k (mergedArtifact a v₁) hk]
            rw [← hours₁, hdk]
            exact hfresh
          · rw [hdk]
            exact PyDict.dget_dset_self ours₁ _ (markDuplicate v₁)
        · left
          rw [PyDict.dget_dset_ne ours₁ _ k (markDuplicate v₁) hdk]
          exact PyDict.dget_dset_ne ours k₁ k (mergedArtifact a v₁) hk
      · have hd' : dupCond v₁ a = false := by
          cases hdd : dupCond v₁ a
          · rfl
          · exact absurd hdd hd
        by_cases hi : identityMatch v₁ a = true
        · rw [merge_step_some_match ours k₁ v₁ a hg hd' hi] at hok
          have hok' := Except.ok.inj hok
          subst hok'
          left
          exact PyDict.dget_dset_ne ours k₁ k (mergedArtifact a v₁) hk
        · have hi' : identityMatch v₁ a = false := by
            cases hii : identityMatch v₁ a
            · rfl
            · exact absurd hii hi
          rw [merge_step_some_err ours k₁ v₁ a hg hd' hi'] at hok
          cases hok
  | none =>
      cases hb : (dset ours k₁ v₁).any (fun kv => betaDupCond v₁ kv.2) with
      | true =>
          rw [merge_step_none_hit ours k₁ v₁ hg hb] at hok
          have hok' := Except.ok.inj hok
          subst hok'
          left
          rw [PyDict.dget_dset_ne (dset ours k₁ v₁) k₁ k (markDuplicate v₁) hk]
          exact PyDict.dget_dset_ne ours k₁ k v₁ hk
      | false =>
          rw [merge_step_none_miss ours k₁ v₁ hg hb] at hok
          have hok' := Except.ok.inj hok
          subst hok'
          left
          exact PyDict.dget_dset_ne ours k₁ k v₁ hk

theorem merge_meta_data_cons (ours : OtaMetaData) (k : String)
    (v : OtaArtifact) (rest : List (String × OtaArtifact)) :
    merge_meta_data ours ((k, v) :: rest) =
      (merge_step ours k v).bind (fun mid => merge_meta_data mid rest) := by
  rfl

theorem merge_meta_data_cons_ok (ours : OtaMetaData) (k : String)
    (v : OtaArtifact) (rest : List (String × OtaArtifact)) (m : OtaMetaData)
    (h : merge_meta_data ours ((k, v) :: rest) = .ok m) :
    ∃ mid, merge_step ours k v = .ok mid ∧ merge_meta_data mid rest = .ok m := by
  rw [merge_meta_data_cons] at h
  cases hs : merge_step ours k v with
  | error e => rw [hs] at h; cases h
  | ok mid =>
      rw [hs] at h
      exact ⟨mid, rfl, h⟩

theorem merge_meta_data_append_ok (l₁ : List (String × OtaArtifact)) :
    ∀ ours l₂ m, merge_meta_data ours (l₁ ++ l₂) = .ok m →
      ∃ mid, merge_meta_data ours l₁ = .ok mid ∧
        merge_meta_data mid l₂ = .ok m := by
  induction l₁ with
  | nil =>
      intro ours l₂ m h
      exact ⟨ours, rfl, h⟩
  | cons hd rest ih =>
      intro ours l₂ m h
      obtain ⟨k, v⟩ := hd
      rw [List.cons_append] at h
      obtain ⟨mid₁, hs, hrest⟩ := merge_meta_data_cons_ok ours k v _ m h
      obtain ⟨mid₂, hm₁, hm₂⟩ := ih mid₁ l₂ m hrest
      refine ⟨mid₂, ?_, hm₂⟩
      rw [merge_meta_data_cons, hs]
      exact hm₁

theorem merge_meta_data_err_of_prefix_ok (l₁ : List (String × OtaArtifact)) :
    ∀ ours l₂ mid, merge_meta_data ours l₁ = .ok mid →
      (∃ e, merge_meta_data mid l₂ = .error e) →
      ∃ e, merge_meta_data ours (l₁ ++ l₂) = .error e := by
  induction l₁ with
  | nil =>
      intro ours l₂ mid h he
      cases h
      simpa using he
  | cons hd rest ih =>
      intro ours l₂ mid h he
      obtain ⟨k, v⟩ := hd
      obtain ⟨mid₁, hs, hrest⟩ := merge_meta_data_cons_ok ours k v rest mid h
      obtain ⟨e, hee⟩ := ih mid₁ l₂ mid hrest he
      refine ⟨e, ?_⟩
      rw [List.cons_append, merge_meta_data_cons, hs]
      exact hee

theorem merge_meta_data_preserve (theirs : List (String × OtaArtifact)) :
    ∀ ours m, merge_meta_data ours theirs = .ok m →
      ∀ k, k ∉ dkeys theirs →
        dget m k = dget ours k ∨
          (dget ours k = none ∧
            ∃ v, dget m k = some v ∧
              v.processing_state = ArtifactProcessingState.INDEXED_DUPLICATE) := by
  induction theirs with
  | nil =>
      intro ours m h k _
      cases h
      left
      rfl
  | cons hd rest ih =>
      intro ours m h k hk
      obtain ⟨k₁, v₁⟩ := hd
      have hk₁ : k ≠ k₁ := by
        intro hkk
        apply hk
        rw [hkk]
        simp [PyDict.dkeys]
      have hkrest : k ∉ dkeys rest := by
        intro hkr
        apply hk
        simp [PyDict.dkeys] at hkr ⊢
        right
        exact hkr
      obtain ⟨mid, hs, hrest⟩ := merge_meta_data_cons_ok ours k₁ v₁ rest m h
      have hstep := merge_step_preserve_ne ours mid k₁ v₁ hs k hk₁
      have hfold := ih mid m hrest k hkrest
      rcases hfold with hfold | ⟨hmidnone, v, hv, hvdup⟩
      · rcases hstep with hstep | ⟨hoursnone, hmiddup⟩
        · left; rw [hfold, hstep]
        · right
          refine ⟨hoursnone, markDuplicate v₁, ?_, rfl⟩
          rw [hfold, hmiddup]
      · rcases hstep with hstep | ⟨hoursnone, hmiddup⟩
        · right
          refine ⟨?_, v, hv, hvdup⟩
          rw [← hstep]
          exact hmidnone
        · rw [hmiddup] at hmidnone
          cases hmidnone

theorem merge_step_frame (ours ours' : OtaMetaData) (k₁ : String)
    (v₁ : OtaArtifact) (hok : merge_step ours k₁ v₁ = .ok ours')
    (k : String) (a : OtaArtifact) (hg : dget ours k = some a) :
    ∃ b, dget ours' k = some b ∧ nonMergedFields b = nonMergedFields a := by
  by_cases hk : k = k₁
  · subst hk
    by_cases hd : dupCond v₁ a = true
    · rw [merge_step_some_dup ours k v₁ a hg hd] at hok
      have hok' := Except.ok.inj hok
      subst hok'
      set ours₁ := dset ours k (mergedArtifact a v₁) with hours₁
      have hself : dget ours₁ k = some (mergedArtifact a v₁) :=
        PyDict.dget_dset_self ours k (mergedArtifact a v₁)
      have hfresh : dget ours₁ (generate_duplicate_key_from ours₁ k) = none :=
        generate_duplicate_key_fresh ours₁ k
      have hne : k ≠ generate_duplicate_key_from ours₁ k := by
        intro hkk
        rw [← hkk] at hfresh
        rw [hself] at hfresh
        cases hfresh
      refine ⟨mergedArtifact a v₁, ?_, rfl⟩
      rw [PyDict.dget_dset_ne ours₁ _ k (markDuplicate v₁) hne]
      exact hself
    · have hd' : dupCond v₁ a = false := by
        cases hdd : dupCond v₁ a
        · rfl
        · exact absurd hdd hd
      by_cases hi : identityMatch v₁ a = true
      · rw [merge_step_some_match ours k v₁ a hg hd' hi] at hok
        have hok' := Except.ok.inj hok
        subst hok'
        exact ⟨mergedArtifact a v₁, PyDict.dget_dset_self ours k _, rfl⟩
      · have hi' : identityMatch v₁ a = false := by
          cases hii : identityMatch v₁ a
          · rfl
          · exact absurd hii hi
        rw [merge_step_some_err ours k v₁ a hg hd' hi'] at hok
        cases hok
  · have hpres := merge_step_preserve_ne ours ours' k₁ v₁ hok k hk
    rcases hpres with h | ⟨hnone, _⟩
    · refine ⟨a, ?_, rfl⟩
      rw [h]
      exact hg
    · rw [hg] at hnone
      cases hnone

theorem merge_meta_data_frame (theirs : List (String × OtaArtifact)) :
    ∀ ours m, merge_meta_data ours theirs = .ok m →
      ∀ k a, dget ours k = some a →
        ∃ b, dget m k = some b ∧ nonMergedFields b = nonMergedFields a := by
  induction theirs with
  | nil =>
      intro ours m h k a hg
      cases h
      exact ⟨a, hg, rfl⟩
  | cons hd rest ih =>
      intro ours m h k a hg
      obtain ⟨k₁, v₁⟩ := hd
      obtain ⟨mid, hs, hrest⟩ := merge_meta_data_cons_ok ours k₁ v₁ rest m h
      obtain ⟨b₁, hb₁, hf₁⟩ := merge_step_frame ours mid k₁ v₁ hs k a hg
      obtain ⟨b₂, hb₂, hf₂⟩ := ih mid m hrest k b₁ hb₁
      exact ⟨b₂, hb₂, hf₂.trans hf₁⟩

theorem merge_meta_data_err_of_prefix_err (l₁ : List (String × OtaArtifact)) :
    ∀ ours l₂ e, merge_meta_data ours l₁ = .error e →
      merge_meta_data ours (l₁ ++ l₂) = .error e := by
  induction l₁ with
  | nil =>
      intro ours l₂ e h
      cases h
  | cons hd rest ih =>
      intro ours l₂ e h
      obtain ⟨k, v⟩ := hd
      rw [merge_meta_data_cons] at h
      rw [List.cons_append, merge_meta_data_cons]
      cases hs : merge_step ours k v with
      | error e' =>
          rw [hs] at h
          simp [Except.bind] at h ⊢
          exact h
      | ok mid =>
          rw [hs] at h
          simp only [Except.bind] at h ⊢
          exact ih mid l₂ e h

theorem split_of_mem_nodup (theirs : List (String × OtaArtifact)) (k : String)
    (b : OtaArtifact) (hnodup : (dkeys theirs).Nodup)
    (hmem : (k, b) ∈ theirs) :
    ∃ pre post, theirs = pre ++ (k, b) :: post ∧
      k ∉ dkeys pre ∧ k ∉ dkeys post := by
  obtain ⟨pre, post, rfl⟩ := List.append_of_mem hmem
  have hk : dkeys (pre ++ (k, b) :: post) =
      dkeys pre ++ k :: dkeys post := by
    simp [PyDict.dkeys]
  rw [hk] at hnodup
  rw [List.nodup_append] at hnodup
  obtain ⟨hn₁, hn₂, hdisj⟩ := hnodup
  refine ⟨pre, post, rfl, ?_, ?_⟩
  · intro hkpre
    exact hdisj hkpre (List.mem_cons_self k _)
  · rw [List.nodup_cons] at hn₂
    exact hn₂.1

/-- Claim C2: at a shared key whose items disagree on identity beyond a
build-only difference, `merge_meta_data` raises `RuntimeError` (no entry is
silently overwritten: the merge aborts with an error). -/
theorem C2_identity_mismatch_is_fatal (ours : OtaMetaData)
    (theirs : List (String × OtaArtifact)) (k : String) (a b : OtaArtifact)
    (hnodup : (dkeys theirs).Nodup)
    (ha : dget ours k = some a) (hb : (k, b) ∈ theirs)
    (hdup : dupCond b a = false) (hid : identityMatch b a = false) :
    ∃ e, merge_meta_data ours theirs = .error e := by
  obtain ⟨pre, post, hsplit, hkpre, _⟩ :=
    split_of_mem_nodup theirs k b hnodup hb
  subst hsplit
  cases hpre : merge_meta_data ours pre with
  | error e =>
      exact ⟨e, merge_meta_data_err_of_prefix_err pre ours _ e hpre⟩
  | ok mid =>
      have hmid : dget mid k = some a := by
        have hp := merge_meta_data_preserve pre ours mid hpre k hkpre
        rcases hp with hp | ⟨hnone, _⟩
        · rw [hp]; exact ha
        · rw [ha] at hnone; cases hnone
      apply merge_meta_data_err_of_prefix_ok pre ours _ mid hpre
      refine ⟨"Matching keys with different value: " ++ k, ?_⟩
      rw [merge_meta_data_cons, merge_step_some_err mid k b a hmid hdup hid]
      rfl

/-- Claim C4: a merge that completes leaves every pre-existing entry's
`processing_state`, `download_path`, `last_run` (and every other field
except the merged `devices` and `description` collections) exactly as it
was; in particular `processing_state` is never changed, so it cannot
regress. -/
theorem C4_merge_preserves_existing_entries (ours : OtaMetaData)
    (theirs : List (String × OtaArtifact)) (m : OtaMetaData)
    (hok : merge_meta_data ours theirs = .ok m)
    (k : String) (a : OtaArtifact) (hg : dget ours k = some a) :
    ∃ b, dget m k = some b ∧
      b.processing_state = a.processing_state ∧
      b.download_path = a.download_path ∧
      b.last_run = a.last_run ∧
      b.build = a.build ∧ b.version = a.version ∧ b.platform = a.platform ∧
      b.id = a.id ∧ b.url = a.url ∧ b.hash = a.hash ∧
      b.hash_algorithm = a.hash_algorithm := by
  obtain ⟨b, hb, hf⟩ := merge_meta_data_frame theirs ours m hok k a hg
  unfold nonMergedFields at hf
  simp only [Prod.mk.injEq] at hf
  obtain ⟨h₁, h₂, h₃, h₄, h₅, h₆, h₇, h₈, h₉, h₁₀⟩ := hf
  exact ⟨b, hb, h₁₀, h₆, h₉, h₁, h₂, h₃, h₄, h₅, h₇, h₈⟩

/-- Claim C1: merging an incoming artifact under a fresh key whose payload
(hash, hash algorithm, platform, version, url) matches an already-indexed
local entry but whose build differs leaves the local entry `INDEXED` and
stores the incoming entry as `INDEXED_DUPLICATE`: exactly one of the two
keys ends up `INDEXED`, the other `INDEXED_DUPLICATE`. -/
theorem C1_duplicate_detection (ours : OtaMetaData)
    (theirs : List (String × OtaArtifact)) (m : OtaMetaData)
    (k₀ k₁ : String) (a₀ b : OtaArtifact)
    (hnodup : (dkeys theirs).Nodup)
    (hk₀ : dget ours k₀ = some a₀)
    (hk₀state : a₀.processing_state = ArtifactProcessingState.INDEXED)
    (hk₀nin : k₀ ∉ dkeys theirs)
    (hk₁none : dget ours k₁ = none)
    (hk₁mem : (k₁, b) ∈ theirs)
    (hhash : b.hash = a₀.hash)
    (halg : b.hash_algorithm = a₀.hash_algorithm)
    (hplat : b.platform = a₀.platform)
    (hver : b.version = a₀.version)
    (hurl : b.url = a₀.url)
    (hbuild : b.build ≠ a₀.build)
    (hok : merge_meta_data ours theirs = .ok m) :
    (∃ a', dget m k₀ = some a' ∧
      a'.processing_state = ArtifactProcessingState.INDEXED) ∧
    (∃ b', dget m k₁ = some b' ∧
      b'.processing_state = ArtifactProcessingState.INDEXED_DUPLICATE) := by
  have hk₀k₁ : k₀ ≠ k₁ := by
    intro h
    rw [h, hk₁none] at hk₀
    cases hk₀
  constructor
  · have hp := merge_meta_data_preserve theirs ours m hok k₀ hk₀nin
    rcases hp with hp | ⟨hnone, _⟩
    · refine ⟨a₀, ?_, hk₀state⟩
      rw [hp]
      exact hk₀
    · rw [hk₀] at hnone
      cases hnone
  · obtain ⟨pre, post, hsplit, hkpre, hkpost⟩ :=
      split_of_mem_nodup theirs k₁ b hnodup hk₁mem
    subst hsplit
    have hk₀pre : k₀ ∉ dkeys pre := by
      intro hc
      apply hk₀nin
      unfold PyDict.dkeys at hc ⊢
      rw [List.map_append]
      exact List.mem_append_left _ hc
    obtain ⟨mid, hpre, hrest⟩ := merge_meta_data_append_ok pre ours _ m hok
    obtain ⟨mid₂, hstep, hpost⟩ :=
      merge_meta_data_cons_ok mid k₁ b post m hrest
    have hk₀mid : dget mid k₀ = some a₀ := by
      have hp := merge_meta_data_preserve pre ours mid hpre k₀ hk₀pre
      rcases hp with hp | ⟨hnone, _⟩
      · rw [hp]; exact hk₀
      · rw [hk₀] at hnone; cases hnone
    have hmid₂dup : ∃ w, dget mid₂ k₁ = some w ∧
        w.processing_state = ArtifactProcessingState.INDEXED_DUPLICATE := by
      have hp := merge_meta_data_preserve pre ours mid hpre k₁ hkpre
      rcases hp with hp | ⟨_, v, hv, hvdup⟩
      · -- the key is still fresh when its own iteration runs
        have hmidnone : dget mid k₁ = none := by rw [hp]; exact hk₁none
        have hk₀ours₁ : dget (dset mid k₁ b) k₀ = some a₀ := by
          rw [PyDict.dget_dset_ne mid k₁ k₀ b hk₀k₁]
          exact hk₀mid
        have hany : (dset mid k₁ b).any
            (fun kv => betaDupCond b kv.2) = true := by
          rw [List.any_eq_true]
          refine ⟨(k₀, a₀), PyDict.mem_of_dget _ _ _ hk₀ours₁, ?_⟩
          simp [betaDupCond, hhash, halg, hplat, hver, hbuild]
        rw [merge_step_none_hit mid k₁ b hmidnone hany] at hstep
        have hstep' := Except.ok.inj hstep
        subst hstep'
        exact ⟨markDuplicate b, PyDict.dget_dset_self _ _ _, rfl⟩
      · -- an earlier iteration already created this key, marked duplicate
        obtain ⟨w, hw, hwf⟩ := merge_step_frame mid mid₂ k₁ b hstep k₁ v hv
        refine ⟨w, hw, ?_⟩
        unfold nonMergedFields at hwf
        simp only [Prod.mk.injEq] at hwf
        rw [hwf.2.2.2.2.2.2.2.2.2]
        exact hvdup
    obtain ⟨w, hw, hwdup⟩ := hmid₂dup
    have hp := merge_meta_data_preserve post mid₂ m hpost k₁ hkpost
    rcases hp with hp | ⟨hnone, _⟩
    · refine ⟨w, ?_, hwdup⟩
      rw [hp]
      exact hw
    · rw [hw] at hnone
      cases hnone

theorem identityMatch_self (b : OtaArtifact) : identityMatch b b = true := by
  simp [identityMatch]

theorem identityMatch_markDuplicate (b v : OtaArtifact) :
    identityMatch b (markDuplicate v) = identityMatch b v := rfl

theorem identityMatch_mergedArtifact (b a v : OtaArtifact) :
    identityMatch b (mergedArtifact a v) = identityMatch b a := rfl

theorem dupCond_false_of_identityMatch (b c : OtaArtifact)
    (h : identityMatch b c = true) : dupCond b c = false := by
  simp only [identityMatch, Bool.and_eq_true, beq_iff_eq] at h
  simp [dupCond, bne, h.1]

theorem merge_step_absorbed (m : OtaMetaData) (k : String) (b c : OtaArtifact)
    (hc : dget m k = some c) (hid : identityMatch b c = true)
    (hdesc : b.description ⊆ c.description) (hdev : b.devices ⊆ c.devices) :
    merge_step m k b = .ok m := by
  have hma : mergedArtifact c b = c := by
    unfold mergedArtifact merge_lists
    rw [Finset.union_eq_left.mpr hdesc, Finset.union_eq_left.mpr hdev]
  rw [merge_step_some_match m k b c hc
    (dupCond_false_of_identityMatch b c hid) hid, hma,
    PyDict.dset_eq_of_dget m k c hc]

theorem merge_meta_data_absorbed (i : List (String × OtaArtifact)) :
    ∀ m : OtaMetaData,
      (∀ k b, (k, b) ∈ i → ∃ c, dget m k = some c ∧
        identityMatch b c = true ∧ b.description ⊆ c.description ∧
        b.devices ⊆ c.devices) →
      merge_meta_data m i = .ok m := by
  induction i with
  | nil => intro m _; rfl
  | cons hd rest ih =>
      intro m hfacts
      obtain ⟨k, b⟩ := hd
      obtain ⟨c, hc, hid, hdesc, hdev⟩ :=
        hfacts k b (List.mem_cons_self _ _)
      rw [merge_meta_data_cons,
        merge_step_absorbed m k b c hc hid hdesc hdev]
      exact ih m (fun k' b' hm => hfacts k' b' (List.mem_cons_of_mem _ hm))

theorem merge_meta_data_post_facts (i : List (String × OtaArtifact)) :
    ∀ l m : OtaMetaData, merge_meta_data l i = .ok m →
      (dkeys i).Nodup →
      (∀ k b a, (k, b) ∈ i → dget l k = some a → dupCond b a = false) →
      ∀ k b, (k, b) ∈ i → ∃ c, dget m k = some c ∧
        identityMatch b c = true ∧ b.description ⊆ c.description ∧
        b.devices ⊆ c.devices := by
  induction i with
  | nil => intro l m _ _ _ k b hm; cases hm
  | cons hd rest ih =>
      intro l m hok hnodup hnobuild k b hmem
      obtain ⟨k₁, b₁⟩ := hd
      obtain ⟨l₁, hstep, hrest⟩ := merge_meta_data_cons_ok l k₁ b₁ rest m hok
      have hnodup' : (dkeys rest).Nodup := by
        have : dkeys ((k₁, b₁) :: rest) = k₁ :: dkeys rest := rfl
        rw [this, List.nodup_cons] at hnodup
        exact hnodup.2
      have hk₁rest : k₁ ∉ dkeys rest := by
        have : dkeys ((k₁, b₁) :: rest) = k₁ :: dkeys rest := rfl
        rw [this, List.nodup_cons] at hnodup
        exact hnodup.1
      -- work out the concrete shape of l₁ and along the way the entry at k₁
      have hshape : (∀ k', k' ≠ k₁ → dget l₁ k' = dget l k') ∧
          ∃ c₁, dget l₁ k₁ = some c₁ ∧ identityMatch b₁ c₁ = true ∧
            b₁.description ⊆ c₁.description ∧ b₁.devices ⊆ c₁.devices := by
        cases hg : dget l k₁ with
        | some a =>
            have hdup : dupCond b₁ a = false :=
              hnobuild k₁ b₁ a (List.mem_cons_self _ _) hg
            cases hi : identityMatch b₁ a with
            | false =>
                rw [merge_step_some_err l k₁ b₁ a hg hdup hi] at hstep
                cases hstep
            | true =>
                rw [merge_step_some_match l k₁ b₁ a hg hdup hi] at hstep
                have hstep' := Except.ok.inj hstep
                subst hstep'
                constructor
                · intro k' hk'
                  exact PyDict.dget_dset_ne l k₁ k' _ hk'
                · refine ⟨mergedArtifact a b₁, PyDict.dget_dset_self _ _ _, ?_, ?_, ?_⟩
                  · rw [identityMatch_mergedArtifact]
                    exact hi
                  · exact Finset.subset_union_right
                  · exact Finset.subset_union_right
        | none =>
            cases hb : (dset l k₁ b₁).any (fun kv => betaDupCond b₁ kv.2) with
            | true =>
                rw [merge_step_none_hit l k₁ b₁ hg hb] at hstep
                have hstep' := Except.ok.inj hstep
                subst hstep'
                constructor
                · intro k' hk'
                  rw [PyDict.dget_dset_ne _ k₁ k' _ hk',
                    PyDict.dget_dset_ne l k₁ k' _ hk']
                · refine ⟨markDuplicate b₁, PyDict.dget_dset_self _ _ _, ?_, ?_, ?_⟩
                  · rw [identityMatch_markDuplicate]
                    exact identityMatch_self b₁
                  · exact Finset.Subset.refl _
                  · exact Finset.Subset.refl _
            | false =>
                rw [merge_step_none_miss l k₁ b₁ hg hb] at hstep
                have hstep' := Except.ok.inj hstep
                subst hstep'
                constructor
                · intro k' hk'
                  exact PyDict.dget_dset_ne l k₁ k' _ hk'
                · refine ⟨b₁, PyDict.dget_dset_self _ _ _, identityMatch_self b₁,
                    Finset.Subset.refl _, Finset.Subset.refl _⟩
      obtain ⟨hframe, c₁, hc₁, hid₁, hdesc₁, hdev₁⟩ := hshape
      rcases List.mem_cons.mp hmem with hhd | htl
      · -- the head entry: carried unchanged through the rest of the fold
        obtain ⟨hk, hb⟩ := Prod.mk.injEq .. ▸ hhd
        subst hk
        subst hb
        have hp := merge_meta_data_preserve rest l₁ m hrest k hk₁rest
        rcases hp with hp | ⟨hnone, _⟩
        · refine ⟨c₁, ?_, hid₁, hdesc₁, hdev₁⟩
          rw [hp]
          exact hc₁
        · rw [hc₁] at hnone
          cases hnone
      · -- an entry of the tail: use the induction hypothesis on l₁
        apply ih l₁ m hrest hnodup' ?_ k b htl
        intro k' b' a' hm' hget'
        have hk' : k' ≠ k₁ := by
          intro hkk
          apply hk₁rest
          rw [← hkk]
          exact List.mem_map_of_mem Prod.fst hm'
        rw [hframe k' hk'] at hget'
        exact hnobuild k' b' a' (List.mem_cons_of_mem _ hm') hget'

instance {ε α : Type} [DecidableEq ε] [DecidableEq α] :
    DecidableEq (Except ε α) := fun a b =>
  match a, b with
  | .ok x, .ok y =>
      if h : x = y then .isTrue (by rw [h])
      else .isFalse (by intro hc; cases hc; exact h rfl)
  | .error x, .error y =>
      if h : x = y then .isTrue (by rw [h])
      else .isFalse (by intro hc; cases hc; exact h rfl)
  | .ok _, .error _ => .isFalse (by intro hc; cases hc)
  | .error _, .ok _ => .isFalse (by intro hc; cases hc)

/-- Local document for the C3 counterexample: one artifact under key
"A". -/
def c3OursArtifact : OtaArtifact :=
  ⟨"21A100", ∅, "17.0", "ios", "A", "U", none, ∅, "H", "SHA-1", 0,
    ArtifactProcessingState.INDEXED⟩

/-- Incoming item for the C3 counterexample: same identity payload as
`c3OursArtifact` except for the build. -/
def c3TheirsArtifact : OtaArtifact :=
  { c3OursArtifact with build := "21A99" }

/-- Concrete local document for the C3 counterexample. -/
def c3Ours : OtaMetaData := [("A", c3OursArtifact)]

/-- Concrete incoming document for the C3 counterexample. -/
def c3Theirs : List (String × OtaArtifact) := [("A", c3TheirsArtifact)]

/-- Counterexample to claim C3 as stated: merging the same incoming
document twice is not the same as merging it once.  The shared key "A"
differs only in `build`, so the first merge adds `A_duplicate_1` and the
second merge adds `A_duplicate_2` on top. -/
theorem C3_counterexample_not_idempotent :
    (merge_meta_data c3Ours c3Theirs).bind
      (fun m => merge_meta_data m c3Theirs) ≠
    merge_meta_data c3Ours c3Theirs := by
  decide

/-- Claim C3 as amended: `merge_meta_data` is idempotent provided every
incoming entry that shares a key with a local entry agrees with it on all
identity fields including `build` (equivalently: no shared key takes the
build-only duplicate branch).  Without that proviso each re-merge appends a
fresh `_duplicate_N` key. -/
theorem C3_amended_merge_idempotent (l : OtaMetaData)
    (i : List (String × OtaArtifact)) (m : OtaMetaData)
    (hnodup : (dkeys i).Nodup)
    (hnobuild : ∀ k b a, (k, b) ∈ i → dget l k = some a →
      dupCond b a = false)
    (hok : merge_meta_data l i = .ok m) :
    merge_meta_data m i = .ok m :=
  merge_meta_data_absorbed i m
    (merge_meta_data_post_facts i l m hok hnodup hnobuild)

/-- Scenario A local artifact: indexed GA release under key "A". -/
def c1A : OtaArtifact :=
  ⟨"21A100", ∅, "17.0", "ios", "A", "U", none, ∅, "H", "SHA-1", 0,
    ArtifactProcessingState.INDEXED⟩

/-- Scenario A incoming beta artifact: same payload, different build. -/
def c1B : OtaArtifact :=
  ⟨"21A99", ∅, "17.0", "ios", "A", "U", none, ∅, "H", "SHA-1", 0,
    ArtifactProcessingState.INDEXED⟩

/-- Scenario A local document. -/
def c1Ours : OtaMetaData := [("A", c1A)]

/-- Scenario A incoming document. -/
def c1Theirs : List (String × OtaArtifact) := [("A_beta", c1B)]

/-- Scenario A merge result. -/
def c1Merged : OtaMetaData :=
  [("A", c1A),
   ("A_beta", { c1B with
     processing_state := ArtifactProcessingState.INDEXED_DUPLICATE })]

theorem C1_duplicate_detection_witness :
    (∃ a', dget c1Merged "A" = some a' ∧
      a'.processing_state = ArtifactProcessingState.INDEXED) ∧
    (∃ b', dget c1Merged "A_beta" = some b' ∧
      b'.processing_state = ArtifactProcessingState.INDEXED_DUPLICATE) :=
  C1_duplicate_detection c1Ours c1Theirs c1Merged "A" "A_beta" c1A c1B
    (by decide) (by decide) (by decide) (by decide) (by decide) (by decide)
    (by decide) (by decide) (by decide) (by decide) (by decide) (by decide)
    (by decide)

/-- Scenario B local artifact under key "X" with version 17.0. -/
def c2A : OtaArtifact :=
  ⟨"21A100", ∅, "17.0", "ios", "X", "U", none, ∅, "H", "SHA-1", 0,
    ArtifactProcessingState.INDEXED⟩

/-- Scenario B incoming artifact under key "X" with version 17.1. -/
def c2B : OtaArtifact :=
  { c2A with version := "17.1" }

theorem C2_identity_mismatch_is_fatal_witness :
    ∃ e, merge_meta_data [("X", c2A)] [("X", c2B)] = .error e :=
  C2_identity_mismatch_is_fatal [("X", c2A)] [("X", c2B)] "X" c2A c2B
    (by decide) (by decide) (by decide) (by decide) (by decide)

/-- C3 witness local artifact with one description entry. -/
def c3wA : OtaArtifact :=
  ⟨"21A100", {"x"}, "17.0", "ios", "A", "U", none, ∅, "H", "SHA-1", 0,
    ArtifactProcessingState.INDEXED⟩

/-- C3 witness incoming artifact, identical identity, new description. -/
def c3wB : OtaArtifact :=
  { c3wA with description := {"y"} }

/-- C3 witness local document. -/
def c3wOurs : OtaMetaData := [("A", c3wA)]

/-- C3 witness incoming document. -/
def c3wTheirs : List (String × OtaArtifact) := [("A", c3wB)]

/-- C3 witness merge result (descriptions are unioned). -/
def c3wMerged : OtaMetaData :=
  [("A", { c3wA with description := {"x", "y"} })]

theorem C3_amended_merge_idempotent_witness :
    merge_meta_data c3wMerged c3wTheirs = .ok c3wMerged :=
  C3_amended_merge_idempotent c3wOurs c3wTheirs c3wMerged (by decide)
    (by
      intro k b a hmem hget
      simp only [c3wTheirs, List.mem_singleton, Prod.mk.injEq] at hmem
      obtain ⟨hk, hb⟩ := hmem
      subst hk
      subst hb
      have ha : a = c3wA := by
        simp [c3wOurs, PyDict.dget] at hget
        exact hget.symm
      subst ha
      decide)
    (by decide)

/-- C4 witness local artifact: already fully processed. -/
def c4A : OtaArtifact :=
  ⟨"21A100", ∅, "17.0", "ios", "K", "U", some "mirror/ota/ios/K.zip", ∅,
    "H", "SHA-1", 7, ArtifactProcessingState.SYMBOLS_EXTRACTED⟩

/-- C4 witness incoming artifact: same identity, freshly indexed. -/
def c4B : OtaArtifact :=
  ⟨"21A100", {"d"}, "17.0", "ios", "K", "U", none, ∅,
    "H", "SHA-1", 0, ArtifactProcessingState.INDEXED⟩

/-- C4 witness merge result: only the description set grows. -/
def c4Merged : OtaMetaData :=
  [("K", { c4A with description := {"d"} })]

theorem C4_merge_preserves_existing_entries_witness :
    ∃ b, dget c4Merged "K" = some b ∧
      b.processing_state = c4A.processing_state ∧
      b.download_path = c4A.download_path ∧
      b.last_run = c4A.last_run ∧
      b.build = c4A.build ∧ b.version = c4A.version ∧
      b.platform = c4A.platform ∧
      b.id = c4A.id ∧ b.url = c4A.url ∧ b.hash = c4A.hash ∧
      b.hash_algorithm = c4A.hash_algorithm :=
  C4_merge_preserves_existing_entries [("K", c4A)] [("K", c4B)] c4Merged
    (by decide) "K" c4A (by decide)

/-- The GCS bucket, embedded as a dict from blob name to blob MD5 hash.
Blob existence is key membership; the generation/CAS machinery is
represented by explicit per-attempt success flags where needed. -/
abbrev GcsStore : Type := PyDict String

/-- The retry loop of `OtaGcsStorage.update_meta_item`
(src/symx/_ota/storage/gcs.py lines 127-147): on attempt `i` the freshly
loaded document is `loads i`, the entry is assigned, and the
`if_generation_match` write succeeds iff `casOk i` (false models a
`PreconditionFailed` caused by a concurrent writer). -/
def OtaGcsStorage.update_meta_item_go (loads : Nat → OtaMetaData)
    (casOk : Nat → Bool) (ota_meta_key : String) (ota_meta : OtaArtifact) :
    Nat → Nat → Except String OtaMetaData
  | 0, _ => .error "Failed to update meta-data item"
  | retry + 1, i =>
      let ours := dset (loads i) ota_meta_key ota_meta
      if casOk i then .ok ours
      else OtaGcsStorage.update_meta_item_go loads casOk ota_meta_key
        ota_meta retry (i + 1)

/-- Embedding of `OtaGcsStorage.update_meta_item`: 5 attempts, then `RuntimeError`. -/
def OtaGcsStorage.update_meta_item (loads : Nat → OtaMetaData)
    (casOk : Nat → Bool) (ota_meta_key : String) (ota_meta : OtaArtifact) :
    Except String OtaMetaData :=
  OtaGcsStorage.update_meta_item_go loads casOk ota_meta_key ota_meta 5 0

/-- The `IpswSource` model of `symx._ipsw.common` (the computed
`file_name` property — the basename of the link — is carried as a field). -/
structure IpswSource where
  devices : List String
  link : String
  sha1 : Option String
  size : Option Int
  processing_state : ArtifactProcessingState
  mirror_path : Option String
  file_name : String
  last_run : Int
  deriving DecidableEq

/-- A `datetime.date`. -/
structure PyDate where
  year : Int
  month : Nat
  day : Nat
  deriving DecidableEq

/-- The `IpswArtifact` model of `symx._ipsw.common`. -/
structure IpswArtifact where
  platform : String
  version : String
  build : String
  released : Option PyDate
  release_status : String
  sources : List IpswSource
  last_run : Int
  deriving DecidableEq

/-- The computed `key` property: `{platform}_{version}_{build}`. -/
def IpswArtifact.key (a : IpswArtifact) : String :=
  a.platform ++ "_" ++ a.version ++ "_" ++ a.build

/-- The `IpswArtifactDb` model of `symx._ipsw.common`. -/
structure IpswArtifactDb where
  version : Int
  artifacts : PyDict IpswArtifact
  deriving DecidableEq

/-- Embedding of `IpswArtifactDb.upsert`: `self.artifacts[key] = artifact`. -/
def IpswArtifactDb.upsert (db : IpswArtifactDb) (key : String)
    (artifact : IpswArtifact) : IpswArtifactDb :=
  { db with artifacts := dset db.artifacts key artifact }

/-- The retry loop of `IpswGcsStorage.update_meta_item`
(src/symx/_ipsw/storage/gcs.py lines 139-154): refresh the artifacts db,
upsert under the artifact's key, write under the generation precondition;
5 attempts, then `RuntimeError`. -/
def IpswGcsStorage.update_meta_item_go (loads : Nat → IpswArtifactDb)
    (casOk : Nat → Bool) (ipsw_meta : IpswArtifact) :
    Nat → Nat → Except String IpswArtifactDb
  | 0, _ => .error "Failed to update meta-data item"
  | retry + 1, i =>
      let meta_db := (loads i).upsert ipsw_meta.key ipsw_meta
      if casOk i then .ok meta_db
      else IpswGcsStorage.update_meta_item_go loads casOk ipsw_meta
        retry (i + 1)

/-- Embedding of `IpswGcsStorage.update_meta_item` with its `retry=5` default. -/
def IpswGcsStorage.update_meta_item (loads : Nat → IpswArtifactDb)
    (casOk : Nat → Bool) (ipsw_meta : IpswArtifact) :
    Except String IpswArtifactDb :=
  IpswGcsStorage.update_meta_item_go loads casOk ipsw_meta 5 0

theorem ota_update_go_ok (loads : Nat → OtaMetaData) (casOk : Nat → Bool)
    (key : String) (item : OtaArtifact) :
    ∀ retry i m,
      OtaGcsStorage.update_meta_item_go loads casOk key item retry i = .ok m →
      dget m key = some item := by
  intro retry
  induction retry with
  | zero => intro i m h; cases h
  | succ r ih =>
      intro i m h
      unfold OtaGcsStorage.update_meta_item_go at h
      by_cases hc : casOk i = true
      · rw [if_pos hc] at h
        have h' := Except.ok.inj h
        subst h'
        exact PyDict.dget_dset_self (loads i) key item
      · rw [if_neg hc] at h
        exact ih (i + 1) m h

theorem ota_update_go_err (loads : Nat → OtaMetaData) (casOk : Nat → Bool)
    (key : String) (item : OtaArtifact) :
    ∀ retry i, (∀ j, j < retry → casOk (i + j) = false) →
      OtaGcsStorage.update_meta_item_go loads casOk key item retry i =
        .error "Failed to update meta-data item" := by
  intro retry
  induction retry with
  | zero => intro i _; rfl
  | succ r ih =>
      intro i hall
      unfold OtaGcsStorage.update_meta_item_go
      have h0 : casOk i = false := by
        have := hall 0 (by omega)
        simpa using this
      rw [if_neg (by rw [h0]; exact Bool.false_ne_true)]
      apply ih
      intro j hj
      have := hall (j + 1) (by omega)
      have harith : i + (j + 1) = i + 1 + j := by omega
      rw [harith] at this
      exact this

theorem ipsw_update_go_ok (loads : Nat → IpswArtifactDb) (casOk : Nat → Bool)
    (ipsw : IpswArtifact) :
    ∀ retry i db,
      IpswGcsStorage.update_meta_item_go loads casOk ipsw retry i = .ok db →
      dget db.artifacts ipsw.key = some ipsw := by
  intro retry
  induction retry with
  | zero => intro i db h; cases h
  | succ r ih =>
      intro i db h
      unfold IpswGcsStorage.update_meta_item_go at h
      by_cases hc : casOk i = true
      · rw [if_pos hc] at h
        have h' := Except.ok.inj h
        subst h'
        exact PyDict.dget_dset_self (loads i).artifacts ipsw.key ipsw
      · rw [if_neg hc] at h
        exact ih (i + 1) db h

theorem ipsw_update_go_err (loads : Nat → IpswArtifactDb) (casOk : Nat → Bool)
    (ipsw : IpswArtifact) :
    ∀ retry i, (∀ j, j < retry → casOk (i + j) = false) →
      IpswGcsStorage.update_meta_item_go loads casOk ipsw retry i =
        .error "Failed to update meta-data item" := by
  intro retry
  induction retry with
  | zero => intro i _; rfl
  | succ r ih =>
      intro i hall
      unfold IpswGcsStorage.update_meta_item_go
      have h0 : casOk i = false := by
        have := hall 0 (by omega)
        simpa using this
      rw [if_neg (by rw [h0]; exact Bool.false_ne_true)]
      apply ih
      intro j hj
      have := hall (j + 1) (by omega)
      have harith : i + (j + 1) = i + 1 + j := by omega
      rw [harith] at this
      exact this

/-- Claim C5: `update_meta_item` (both the OTA and IPSW storage variants)
performs a CAS read-modify-write: on success the returned document maps
the key to the given artifact; when every one of the 5 attempts hits
`PRECONDITION_FAILED` the operation raises `RuntimeError`. -/
theorem C5_update_meta_item_cas_retry (loadsO : Nat → OtaMetaData)
    (casOkO : Nat → Bool) (key : String) (item : OtaArtifact)
    (loadsI : Nat → IpswArtifactDb) (casOkI : Nat → Bool)
    (ipsw : IpswArtifact) :
    (∀ m, OtaGcsStorage.update_meta_item loadsO casOkO key item = .ok m →
      dget m key = some item) ∧
    ((∀ i, i < 5 → casOkO i = false) →
      OtaGcsStorage.update_meta_item loadsO casOkO key item =
        .error "Failed to update meta-data item") ∧
    (∀ db, IpswGcsStorage.update_meta_item loadsI casOkI ipsw = .ok db →
      dget db.artifacts ipsw.key = some ipsw) ∧
    ((∀ i, i < 5 → casOkI i = false) →
      IpswGcsStorage.update_meta_item loadsI casOkI ipsw =
        .error "Failed to update meta-data item") := by
  refine ⟨?_, ?_, ?_, ?_⟩
  · intro m h
    exact ota_update_go_ok loadsO casOkO key item 5 0 m h
  · intro hall
    apply ota_update_go_err loadsO casOkO key item 5 0
    intro j hj
    have := hall j hj
    simpa using this
  · intro db h
    exact ipsw_update_go_ok loadsI casOkI ipsw 5 0 db h
  · intro hall
    apply ipsw_update_go_err loadsI casOkI ipsw 5 0
    intro j hj
    have := hall j hj
    simpa using this

/-- C5 witness OTA artifact. -/
def c5Item : OtaArtifact :=
  ⟨"21A100", ∅, "17.0", "ios", "K", "U", none, ∅, "H", "SHA-1", 0,
    ArtifactProcessingState.INDEXED⟩

/-- C5 witness IPSW artifact. -/
def c5Ipsw : IpswArtifact := ⟨"iOS", "17.0", "21A100", none, "rel", [], 0⟩

theorem C5_update_meta_item_cas_retry_witness :
    dget [("K", c5Item)] "K" = some c5Item ∧
    OtaGcsStorage.update_meta_item (fun _ => []) (fun _ => false) "K" c5Item =
      .error "Failed to update meta-data item" ∧
    dget [(c5Ipsw.key, c5Ipsw)] c5Ipsw.key = some c5Ipsw ∧
    IpswGcsStorage.update_meta_item (fun _ => ⟨0, []⟩) (fun _ => false) c5Ipsw =
      .error "Failed to update meta-data item" :=
  ⟨(C5_update_meta_item_cas_retry (fun _ => []) (fun _ => true) "K" c5Item
      (fun _ => ⟨0, []⟩) (fun _ => true) c5Ipsw).1 [("K", c5Item)] (by decide),
   (C5_update_meta_item_cas_retry (fun _ => []) (fun _ => false) "K" c5Item
      (fun _ => ⟨0, []⟩) (fun _ => false) c5Ipsw).2.1 (fun _ _ => rfl),
   (C5_update_meta_item_cas_retry (fun _ => []) (fun _ => true) "K" c5Item
      (fun _ => ⟨0, []⟩) (fun _ => true) c5Ipsw).2.2.1 ⟨0, [(c5Ipsw.key, c5Ipsw)]⟩
      (by decide),
   (C5_update_meta_item_cas_retry (fun _ => []) (fun _ => false) "K" c5Item
      (fun _ => ⟨0, []⟩) (fun _ => false) c5Ipsw).2.2.2 (fun _ _ => rfl)⟩

/-- Embedding of `IpswGcsStorage.download_ipsw` (src/symx/_ipsw/storage/gcs.py lines
208-224): `None` when the blob at the recorded mirror path does not exist,
when downloading fails (`downloadOk`), or when `verify_download` rejects
the bytes (`verifyOk`); otherwise the local file (represented by the blob
key). -/
def IpswGcsStorage.download_ipsw (store : GcsStore)
    (downloadOk verifyOk : Bool) (ipsw_source : IpswSource) :
    Option String :=
  match ipsw_source.mirror_path with
  | none => none
  | some p =>
      if dmem store p = false then none
      else if downloadOk && verifyOk then some p else none

/-- Outcome of the extraction pipeline (`IpswExtractor.run` + symbol
upload, or `extract_symbols_from_ota`), which shells out to external
tools and is out of scope: `success` or any caught exception. -/
inductive ExtractOutcome where
  | success
  | failure
  deriving DecidableEq

/-- The per-source body of the IPSW extract stage
(src/symx/_ipsw/runners.py lines 249-296): bypass non-MIRRORED sources;
a failed mirror download marks the source `MIRROR_CORRUPT`; otherwise the
extraction outcome decides `SYMBOLS_EXTRACTED` / `SYMBOL_EXTRACTION_FAILED`;
`update_last_run` runs on every taken path. -/
def ipsw_extract_source (store : GcsStore) (downloadOk verifyOk : Bool)
    (outcome : ExtractOutcome) (runId : Int) (source : IpswSource) :
    IpswSource :=
  if source.processing_state ≠ ArtifactProcessingState.MIRRORED then
    source
  else
    match IpswGcsStorage.download_ipsw store downloadOk verifyOk source with
    | none =>
        { source with
          processing_state := ArtifactProcessingState.MIRROR_CORRUPT
          last_run := runId }
    | some _ =>
        match outcome with
        | .success =>
            { source with
              processing_state := ArtifactProcessingState.SYMBOLS_EXTRACTED
              last_run := runId }
        | .failure =>
            { source with
              processing_state :=
                ArtifactProcessingState.SYMBOL_EXTRACTION_FAILED
              last_run := runId }

/-- Embedding of `OtaGcsStorage.load_ota` (src/symx/_ota/storage/gcs.py lines 111-125):
`None` when the blob at `download_path` does not exist, when the download
fails, or when `check_ota_hash` rejects the bytes. -/
def OtaGcsStorage.load_ota (store : GcsStore) (downloadOk hashOk : Bool)
    (ota : OtaArtifact) : Option String :=
  match ota.download_path with
  | none => none
  | some p =>
      if dmem store p = false then none
      else if downloadOk && hashOk then some p else none

/-- The per-artifact body of `OtaExtract.extract`
(src/symx/_ota/__init__.py lines 565-588): when the mirrored OTA cannot be
loaded the artifact is reset to `INDEXED` with a cleared `download_path`
(so the mirror workflow downloads it again); otherwise the extraction
outcome decides `SYMBOLS_EXTRACTED` / `SYMBOL_EXTRACTION_FAILED`. -/
def ota_extract_source (store : GcsStore) (downloadOk hashOk : Bool)
    (outcome : ExtractOutcome) (runId : Int) (ota : OtaArtifact) :
    OtaArtifact :=
  match OtaGcsStorage.load_ota store downloadOk hashOk ota with
  | none =>
      { ota with
        download_path := none
        processing_state := ArtifactProcessingState.INDEXED
        last_run := runId }
  | some _ =>
      match outcome with
      | .success =>
          { ota with
            processing_state := ArtifactProcessingState.SYMBOLS_EXTRACTED
            last_run := runId }
      | .failure =>
          { ota with
            processing_state :=
              ArtifactProcessingState.SYMBOL_EXTRACTION_FAILED
            last_run := runId }

/-- C6 counterexample OTA artifact: MIRRORED with mirror path "M". -/
def c6Ota : OtaArtifact :=
  ⟨"21A100", ∅, "17.0", "ios", "A", "U", some "M", ∅, "H", "SHA-1", 0,
    ArtifactProcessingState.MIRRORED⟩

/-- Counterexample to claim C6 as stated: with an empty object store (no
blob at "M"), the OTA extract stage resets the artifact to `INDEXED`, not
`MIRROR_CORRUPT`. -/
theorem C6_counterexample_ota_resets_to_indexed :
    (ota_extract_source [] true true ExtractOutcome.success 1 c6Ota).processing_state ≠
      ArtifactProcessingState.MIRROR_CORRUPT ∧
    (ota_extract_source [] true true ExtractOutcome.success 1 c6Ota).processing_state =
      ArtifactProcessingState.INDEXED := by
  decide

/-- Claim C6 as amended: when the store has no blob at the recorded mirror
path, the IPSW extract stage marks the source `MIRROR_CORRUPT`, while the
OTA extract stage instead resets the artifact to `INDEXED` and clears its
`download_path` so that the mirror stage downloads it again. -/
theorem C6_amended_missing_mirror (store : GcsStore)
    (downloadOk verifyOk : Bool) (outcome : ExtractOutcome) (runId : Int)
    (source : IpswSource) (ota : OtaArtifact) (p q : String)
    (hsrc : source.processing_state = ArtifactProcessingState.MIRRORED)
    (hpath : source.mirror_path = some p)
    (hmiss : dmem store p = false)
    (hopath : ota.download_path = some q)
    (homiss : dmem store q = false) :
    (ipsw_extract_source store downloadOk verifyOk outcome runId
        source).processing_state = ArtifactProcessingState.MIRROR_CORRUPT ∧
    (ota_extract_source store downloadOk verifyOk outcome runId
        ota).processing_state = ArtifactProcessingState.INDEXED ∧
    (ota_extract_source store downloadOk verifyOk outcome runId
        ota).download_path = none := by
  refine ⟨?_, ?_, ?_⟩
  · unfold ipsw_extract_source
    rw [if_neg (by rw [hsrc]; simp)]
    unfold IpswGcsStorage.download_ipsw
    rw [hpath]
    simp [hmiss]
  · unfold ota_extract_source OtaGcsStorage.load_ota
    rw [hopath]
    simp [homiss]
  · unfold ota_extract_source OtaGcsStorage.load_ota
    rw [hopath]
    simp [homiss]

/-- C6 witness IPSW source: MIRRORED with mirror path "M". -/
def c6Source : IpswSource :=
  ⟨[], "L", none, none, ArtifactProcessingState.MIRRORED, some "M",
    "f.ipsw", 0⟩

theorem C6_amended_missing_mirror_witness :
    (ipsw_extract_source [] true true ExtractOutcome.success 1
        c6Source).processing_state = ArtifactProcessingState.MIRROR_CORRUPT ∧
    (ota_extract_source [] true true ExtractOutcome.success 1
        c6Ota).processing_state = ArtifactProcessingState.INDEXED ∧
    (ota_extract_source [] true true ExtractOutcome.success 1
        c6Ota).download_path = none :=
  C6_amended_missing_mirror [] true true ExtractOutcome.success 1 c6Source
    c6Ota "M" "M" (by decide) (by decide) (by decide) (by decide) (by decide)

/-- Character-separator split, the behaviour of Python `s.split("_")`
(keeps empty fields).  Structural so that concrete inputs evaluate. -/
def splitOnCharAux (sep : Char) : List Char → List Char → List (List Char)
  | [], acc => [acc.reverse]
  | c :: rest, acc =>
      if c = sep then acc.reverse :: splitOnCharAux sep rest []
      else splitOnCharAux sep rest (c :: acc)

/-- Python `s.split(sep)` for a one-character separator. -/
def pySplit (s : String) (sep : Char) : List String :=
  (splitOnCharAux sep s.data []).map (fun cs => String.mk cs)

/-- Embedding of `convert_image_name_to_path` of `symx._ota.storage.gcs`: unpack
`old_name.split("_")` into exactly platform, version, build and file (any
other shape raises), and build the mirror key. -/
def convert_image_name_to_path (old_name : String) : Except String String :=
  match pySplit old_name '_' with
  | [platform, version, build, file] =>
      .ok ("mirror/ota/" ++ platform ++ "/" ++ version ++ "/" ++ build ++
        "/" ++ file)
  | _ => .error "cannot unpack image name"

/-- Embedding of `compare_md5_hash` of `symx._common`: the store's per-blob MD5 against
the local file's MD5. -/
def compare_md5_hash (localMd5 remoteMd5 : String) : Bool :=
  remoteMd5 == localMd5

/-- The mirror key of `IpswGcsStorage.upload_ipsw`:
`mirror/ipsw/{platform}/{version}/{build}/{file_name}`. -/
def ipsw_mirror_filename (artifact : IpswArtifact) (source : IpswSource) :
    String :=
  "mirror/ipsw/" ++ artifact.platform ++ "/" ++ artifact.version ++ "/" ++
    artifact.build ++ "/" ++ source.file_name

/-- Result of an upload operation: the updated artifact, the store after
the call, and whether a blob was actually written. -/
structure UploadIpswResult where
  artifact : IpswArtifact
  store : GcsStore
  uploaded : Bool
  deriving DecidableEq

/-- Embedding of `IpswGcsStorage.upload_ipsw` (src/symx/_ipsw/storage/gcs.py lines
101-137).  `source_idx` is `artifact.sources.index(source)`; `localMd5`
is the MD5 of the downloaded file.  If the blob exists with a different
MD5 the source is marked `MIRRORING_FAILED` and nothing is uploaded; if
it exists with the same MD5 the upload is skipped but the source still
advances to `MIRRORED` with its mirror path recorded; otherwise the blob
is uploaded and the source advances to `MIRRORED`. -/
def IpswGcsStorage.upload_ipsw (store : GcsStore) (localMd5 : String)
    (runId : Int) (artifact : IpswArtifact) (source_idx : Nat)
    (source : IpswSource) : UploadIpswResult :=
  let mirror_filename := ipsw_mirror_filename artifact source
  match dget store mirror_filename with
  | some remoteMd5 =>
      if compare_md5_hash localMd5 remoteMd5 then
        { artifact := { artifact with
            sources := artifact.sources.set source_idx
              { source with
                mirror_path := some mirror_filename
                processing_state := ArtifactProcessingState.MIRRORED
                last_run := runId } }
          store := store
          uploaded := false }
      else
        { artifact := { artifact with
            sources := artifact.sources.set source_idx
              { source with
                processing_state := ArtifactProcessingState.MIRRORING_FAILED } }
          store := store
          uploaded := false }
  | none =>
      { artifact := { artifact with
          sources := artifact.sources.set source_idx
            { source with
              mirror_path := some mirror_filename
              processing_state := ArtifactProcessingState.MIRRORED
              last_run := runId } }
        store := dset store mirror_filename localMd5
        uploaded := true }

/-- Result of `OtaGcsStorage.save_ota`: the (possibly updated) artifact,
the store, whether a blob was written, and whether `update_meta_item` was
called. -/
structure SaveOtaResult where
  ota : OtaArtifact
  store : GcsStore
  uploaded : Bool
  metaUpdated : Bool
  deriving DecidableEq

/-- Embedding of `OtaGcsStorage.save_ota` (src/symx/_ota/storage/gcs.py lines 88-109).
If the blob exists with a different MD5 the method plainly returns: the
artifact is left untouched and no metadata update happens.  Otherwise the
artifact advances to `MIRRORED` with `download_path` set and the metadata
item is updated (uploading first when the blob did not exist). -/
def OtaGcsStorage.save_ota (store : GcsStore) (localMd5 : String)
    (runId : Int) (ota_file_name : String) (ota_meta : OtaArtifact) :
    Except String SaveOtaResult :=
  match convert_image_name_to_path ota_file_name with
  | .error e => .error e
  | .ok mirror_filename =>
      match dget store mirror_filename with
      | some remoteMd5 =>
          if compare_md5_hash localMd5 remoteMd5 then
            .ok { ota := { ota_meta with
                    download_path := some mirror_filename
                    processing_state := ArtifactProcessingState.MIRRORED
                    last_run := runId }
                  store := store
                  uploaded := false
                  metaUpdated := true }
          else
            .ok { ota := ota_meta
                  store := store
                  uploaded := false
                  metaUpdated := false }
      | none =>
          .ok { ota := { ota_meta with
                  download_path := some mirror_filename
                  processing_state := ArtifactProcessingState.MIRRORED
                  last_run := runId }
                store := dset store mirror_filename localMd5
                uploaded := true
                metaUpdated := true }

theorem list_getElem_set_self {α : Type} (l : List α) (i : Nat) (a : α)
    (h : i < l.length) : (l.set i a)[i]? = some a :=
  List.getElem?_set_eq_of_lt a h

/-- C7 counterexample OTA artifact (still INDEXED, about to be mirrored). -/
def c7Ota : OtaArtifact :=
  ⟨"21A100", ∅, "17.0", "ios", "ID", "U", none, ∅, "H", "SHA-1", 0,
    ArtifactProcessingState.INDEXED⟩

/-- Counterexample to claim C7 as stated: when the OTA mirror blob exists
with a different MD5 ("R" in the store vs local "L"), `save_ota` returns
without touching the artifact — it is not marked `MIRRORING_FAILED`. -/
theorem C7_counterexample_ota_mismatch_not_marked :
    OtaGcsStorage.save_ota [("mirror/ota/ios/17.0/21A100/ID.zip", "R")] "L"
        1 "ios_17.0_21A100_ID.zip" c7Ota =
      .ok ⟨c7Ota, [("mirror/ota/ios/17.0/21A100/ID.zip", "R")], false,
        false⟩ ∧
    c7Ota.processing_state = ArtifactProcessingState.INDEXED := by
  decide

/-- Claim C7 as amended: on an existing mirror blob both upload paths
compare the store MD5 with the local MD5 and skip the upload; on a match
both advance the source to `MIRRORED` recording the mirror path.  On a
mismatch the IPSW path marks the source `MIRRORING_FAILED`, while the OTA
path returns with the artifact untouched and no metadata update. -/
theorem C7_amended_mirror_md5 (store : GcsStore) (localMd5 remoteMd5 : String)
    (runId : Int) (artifact : IpswArtifact) (source_idx : Nat)
    (source : IpswSource) (ota : OtaArtifact)
    (ota_file_name mirror_filename : String)
    (hidx : source_idx < artifact.sources.length)
    (hget : dget store (ipsw_mirror_filename artifact source) =
      some remoteMd5)
    (hconv : convert_image_name_to_path ota_file_name = .ok mirror_filename)
    (hoget : dget store mirror_filename = some remoteMd5) :
    (remoteMd5 = localMd5 →
      ((IpswGcsStorage.upload_ipsw store localMd5 runId artifact source_idx
          source).artifact.sources[source_idx]? =
        some { source with
          mirror_path := some (ipsw_mirror_filename artifact source)
          processing_state := ArtifactProcessingState.MIRRORED
          last_run := runId } ∧
       (IpswGcsStorage.upload_ipsw store localMd5 runId artifact source_idx
          source).uploaded = false ∧
       (IpswGcsStorage.upload_ipsw store localMd5 runId artifact source_idx
          source).store = store)) ∧
    (remoteMd5 ≠ localMd5 →
      ((IpswGcsStorage.upload_ipsw store localMd5 runId artifact source_idx
          source).artifact.sources[source_idx]? =
        some { source with
          processing_state := ArtifactProcessingState.MIRRORING_FAILED } ∧
       (IpswGcsStorage.upload_ipsw store localMd5 runId artifact source_idx
          source).uploaded = false)) ∧
    (remoteMd5 = localMd5 →
      OtaGcsStorage.save_ota store localMd5 runId ota_file_name ota =
        .ok ⟨{ ota with
          download_path := some mirror_filename
          processing_state := ArtifactProcessingState.MIRRORED
          last_run := runId }, store, false, true⟩) ∧
    (remoteMd5 ≠ localMd5 →
      OtaGcsStorage.save_ota store localMd5 runId ota_file_name ota =
        .ok ⟨ota, store, false, false⟩) := by
  refine ⟨?_, ?_, ?_, ?_⟩
  · intro heq
    have hcmp : compare_md5_hash localMd5 remoteMd5 = true := by
      simp [compare_md5_hash, heq]
    unfold IpswGcsStorage.upload_ipsw
    simp only [hget, hcmp, if_true]
    exact ⟨list_getElem_set_self _ source_idx _ hidx, trivial, trivial⟩
  · intro hne
    have hcmp : compare_md5_hash localMd5 remoteMd5 = false := by
      simp [compare_md5_hash]
      intro hc
      exact hne hc
    unfold IpswGcsStorage.upload_ipsw
    simp only [hget, hcmp, Bool.false_eq_true, if_false]
    exact ⟨list_getElem_set_self _ source_idx _ hidx, trivial⟩
  · intro heq
    have hcmp : compare_md5_hash localMd5 remoteMd5 = true := by
      simp [compare_md5_hash, heq]
    unfold OtaGcsStorage.save_ota
    rw [hconv]
    simp only [hoget, hcmp, if_true]
  · intro hne
    have hcmp : compare_md5_hash localMd5 remoteMd5 = false := by
      simp [compare_md5_hash]
      intro hc
      exact hne hc
    unfold OtaGcsStorage.save_ota
    rw [hconv]
    simp only [hoget, hcmp, Bool.false_eq_true, if_false]

/-- C7 witness IPSW source. -/
def c7Src : IpswSource :=
  ⟨[], "L", none, none, ArtifactProcessingState.INDEXED, none,
    "iPhone9,1_17.0_21A100_Restore.ipsw", 0⟩

/-- C7 witness IPSW artifact containing `c7Src`. -/
def c7Art : IpswArtifact := ⟨"iOS", "17.0", "21A100", none, "rel", [c7Src], 0⟩

/-- C7 witness store where both mirror blobs have the local MD5 "L". -/
def c7StoreEq : GcsStore :=
  [("mirror/ipsw/iOS/17.0/21A100/iPhone9,1_17.0_21A100_Restore.ipsw", "L"),
   ("mirror/ota/ios/17.0/21A100/ID.zip", "L")]

/-- C7 witness store where both mirror blobs have MD5 "R" (a mismatch). -/
def c7StoreNe : GcsStore :=
  [("mirror/ipsw/iOS/17.0/21A100/iPhone9,1_17.0_21A100_Restore.ipsw", "R"),
   ("mirror/ota/ios/17.0/21A100/ID.zip", "R")]

theorem C7_amended_mirror_md5_witness :
    (IpswGcsStorage.upload_ipsw c7StoreEq "L" 1 c7Art 0
        c7Src).artifact.sources[0]? =
      some { c7Src with
        mirror_path :=
          some "mirror/ipsw/iOS/17.0/21A100/iPhone9,1_17.0_21A100_Restore.ipsw"
        processing_state := ArtifactProcessingState.MIRRORED
        last_run := 1 } ∧
    OtaGcsStorage.save_ota c7StoreNe "L" 1 "ios_17.0_21A100_ID.zip" c7Ota =
      .ok ⟨c7Ota, c7StoreNe, false, false⟩ :=
  ⟨((C7_amended_mirror_md5 c7StoreEq "L" "L" 1 c7Art 0 c7Src c7Ota
      "ios_17.0_21A100_ID.zip" "mirror/ota/ios/17.0/21A100/ID.zip"
      (by decide) (by decide) (by decide) (by decide)).1 rfl).1,
   (C7_amended_mirror_md5 c7StoreNe "L" "R" 1 c7Art 0 c7Src c7Ota
      "ios_17.0_21A100_ID.zip" "mirror/ota/ios/17.0/21A100/ID.zip"
      (by decide) (by decide) (by decide) (by decide)).2.2.2 (by decide)⟩

/-- Embedding of `upload_file` of `symx._common` (lines 282-293): a create-only upload
with `if_generation_match=0`.  The store keeps existing blobs untouched;
an existing key answers `PreconditionFailed`, reported as `false`. -/
def upload_file (store : List String) (dest_blob_name : String) :
    List String × Bool :=
  if dest_blob_name ∈ store then (store, false)
  else (dest_blob_name :: store, true)

/-- Upload counters of `upload_symbol_binaries`. -/
structure UploadStats where
  store : List String
  newCount : Nat
  duplicateCount : Nat
  deriving DecidableEq

/-- One file of the `upload_symbol_binaries` walk: the destination key is
`symbols/` plus the path relative to the symsort root; a `false` result
increments the duplicate counter, a `true` result the new counter. -/
def uploadFileStep (acc : UploadStats) (rel : String) : UploadStats :=
  let r := upload_file acc.store ("symbols/" ++ rel)
  if r.2 then ⟨r.1, acc.newCount + 1, acc.duplicateCount⟩
  else ⟨r.1, acc.newCount, acc.duplicateCount + 1⟩

/-- Embedding of `upload_symbol_binaries` of `symx._common` (lines 296-327) over the
walked tree of relative file paths.  The bounded worker pool issues one
independent create-only upload per file and the counters tally the
results, so the pool is embedded as a fold over the files. -/
def upload_symbol_binaries (store : List String) (relPaths : List String) :
    UploadStats :=
  relPaths.foldl uploadFileStep ⟨store, 0, 0⟩

theorem uploadFileStep_foldl_all_dup (l : List String) :
    ∀ acc : UploadStats, (∀ rel ∈ l, ("symbols/" ++ rel) ∈ acc.store) →
      l.foldl uploadFileStep acc =
        ⟨acc.store, acc.newCount, acc.duplicateCount + l.length⟩ := by
  induction l with
  | nil => intro acc _; rfl
  | cons hd tl ih =>
      intro acc hall
      have hhd : ("symbols/" ++ hd) ∈ acc.store :=
        hall hd (List.mem_cons_self _ _)
      have hstep : uploadFileStep acc hd =
          ⟨acc.store, acc.newCount, acc.duplicateCount + 1⟩ := by
        simp [uploadFileStep, upload_file, hhd]
      rw [List.foldl_cons, hstep,
        ih ⟨acc.store, acc.newCount, acc.duplicateCount + 1⟩
          (fun rel hm => hall rel (List.mem_cons_of_mem _ hm))]
      simp only [List.length_cons]
      congr 1
      omega

/-- Claim C8: symbol uploads are create-only; an existing blob is left
untouched and counted as a duplicate, and re-running the uploader over an
already-uploaded tree writes nothing new and counts every file as a
duplicate. -/
theorem C8_symbol_upload_idempotent (store : List String)
    (relPaths : List String) (dest : String) :
    (dest ∈ store → upload_file store dest = (store, false)) ∧
    ((∀ rel ∈ relPaths, ("symbols/" ++ rel) ∈ store) →
      upload_symbol_binaries store relPaths =
        ⟨store, 0, relPaths.length⟩) := by
  constructor
  · intro h
    simp [upload_file, h]
  · intro hall
    unfold upload_symbol_binaries
    rw [uploadFileStep_foldl_all_dup relPaths ⟨store, 0, 0⟩ hall]
    simp

theorem C8_symbol_upload_idempotent_witness :
    upload_file ["symbols/ios/ab/cdef/executable"]
      "symbols/ios/ab/cdef/executable" =
      (["symbols/ios/ab/cdef/executable"], false) ∧
    upload_symbol_binaries ["symbols/ios/ab/cdef/executable"]
      ["ios/ab/cdef/executable"] =
      ⟨["symbols/ios/ab/cdef/executable"], 0, 1⟩ :=
  ⟨(C8_symbol_upload_idempotent ["symbols/ios/ab/cdef/executable"]
      ["ios/ab/cdef/executable"] "symbols/ios/ab/cdef/executable").1
      (by decide),
   (C8_symbol_upload_idempotent ["symbols/ios/ab/cdef/executable"]
      ["ios/ab/cdef/executable"] "symbols/ios/ab/cdef/executable").2
      (by decide)⟩

/-- Embedding of `mirror_filter` of `symx._ipsw.storage.gcs` (lines 50-65):
artifacts with a `released` date whose year is at least the current year
minus one and with at least one `INDEXED` source.  `today` stands for
`datetime.date.today()`. -/
def mirror_filter (today : PyDate) (artifacts : List IpswArtifact) :
    List IpswArtifact :=
  artifacts.filter (fun artifact =>
    match artifact.released with
    | none => false
    | some released =>
        decide (released.year ≥ today.year - 1) &&
        artifact.sources.any (fun source =>
          decide (source.processing_state =
            ArtifactProcessingState.INDEXED)))

/-- C9 counterexample source (INDEXED). -/
def c9Source : IpswSource :=
  ⟨[], "L", none, none, ArtifactProcessingState.INDEXED, none, "f.ipsw", 0⟩

/-- C9 counterexample artifact released in 2027. -/
def c9Artifact : IpswArtifact :=
  ⟨"iOS", "17.0", "21A100", some ⟨2027, 1, 1⟩, "rel", [c9Source], 0⟩

/-- C9 "today": 2026-10-12. -/
def c9Today : PyDate := ⟨2026, 10, 12⟩

/-- Counterexample to claim C9 as stated: an artifact whose released date
lies outside the current and previous calendar year (2027 when today is in
2026) is still selected by `mirror_filter`, because the source only checks
the lower bound `released.year >= today.year - 1`. -/
theorem C9_counterexample_future_year_selected :
    mirror_filter c9Today [c9Artifact] = [c9Artifact] ∧
    c9Artifact.released = some ⟨2027, 1, 1⟩ ∧
    (2027 : Int) ≠ c9Today.year ∧ (2027 : Int) ≠ c9Today.year - 1 := by
  decide

/-- Claim C9 as amended: `mirror_filter` selects exactly the artifacts
with a released date of year at least the current year minus one (there
is no upper bound) and with at least one source in state `INDEXED`. -/
theorem C9_amended_mirror_filter_selects (today : PyDate)
    (artifacts : List IpswArtifact) (artifact : IpswArtifact) :
    artifact ∈ mirror_filter today artifacts ↔
      artifact ∈ artifacts ∧
      ∃ d, artifact.released = some d ∧ today.year - 1 ≤ d.year ∧
        ∃ source ∈ artifact.sources,
          source.processing_state = ArtifactProcessingState.INDEXED := by
  rw [mirror_filter, List.mem_filter]
  constructor
  · rintro ⟨hmem, hcond⟩
    cases hrel : artifact.released with
    | none => rw [hrel] at hcond; cases hcond
    | some d =>
        rw [hrel] at hcond
        simp only [Bool.and_eq_true, decide_eq_true_eq,
          List.any_eq_true] at hcond
        obtain ⟨hyear, s, hs, hstate⟩ := hcond
        exact ⟨hmem, d, rfl, hyear, s, hs, hstate⟩
  · rintro ⟨hmem, d, hrel, hyear, s, hs, hstate⟩
    refine ⟨hmem, ?_⟩
    rw [hrel]
    simp only [Bool.and_eq_true, decide_eq_true_eq, List.any_eq_true]
    exact ⟨hyear, s, hs, hstate⟩

theorem C9_amended_mirror_filter_selects_witness :
    c9Artifact ∈ mirror_filter c9Today [c9Artifact] ↔
      c9Artifact ∈ [c9Artifact] ∧
      ∃ d, c9Artifact.released = some d ∧ c9Today.year - 1 ≤ d.year ∧
        ∃ source ∈ c9Artifact.sources,
          source.processing_state = ArtifactProcessingState.INDEXED :=
  C9_amended_mirror_filter_selects c9Today [c9Artifact] c9Artifact

/-- Embedding of `check_sha1` of `symx._common` (lines 179-189): the streamed SHA-1
hexdigest of the file contents compared against the recorded hash.  The
external `hashlib.sha1` digest is the abstract function `sha1HexDigest`;
the chunked update loop feeds it the whole contents. -/
def check_sha1 (sha1HexDigest : List Nat → String) (hash_sum : String)
    (contents : List Nat) : Bool :=
  sha1HexDigest contents == hash_sum

/-- Embedding of `check_ota_hash` of `symx._ota` (lines 273-277): any hash algorithm
other than the literal "SHA-1" raises `RuntimeError`; otherwise the SHA-1
check of the file decides the result. -/
def check_ota_hash (sha1HexDigest : List Nat → String)
    (ota_meta : OtaArtifact) (contents : List Nat) : Except String Bool :=
  if ota_meta.hash_algorithm ≠ "SHA-1" then
    .error ("Unexpected hash-algo: " ++ ota_meta.hash_algorithm)
  else
    .ok (check_sha1 sha1HexDigest ota_meta.hash contents)

/-- Claim C10: `check_ota_hash` raises `RuntimeError` for every artifact
whose `hash_algorithm` is not exactly "SHA-1", uniformly in the file
contents (the file is never consulted); with "SHA-1" it returns true
exactly when the hexdigest of the contents equals the recorded hash. -/
theorem C10_check_ota_hash (sha1HexDigest : List Nat → String)
    (ota : OtaArtifact) :
    (ota.hash_algorithm ≠ "SHA-1" → ∀ contents,
      check_ota_hash sha1HexDigest ota contents =
        .error ("Unexpected hash-algo: " ++ ota.hash_algorithm)) ∧
    (ota.hash_algorithm = "SHA-1" → ∀ contents,
      (check_ota_hash sha1HexDigest ota contents = .ok true ↔
        sha1HexDigest contents = ota.hash)) := by
  constructor
  · intro hne contents
    simp [check_ota_hash, hne]
  · intro heq contents
    simp [check_ota_hash, heq, check_sha1]

/-- C10 witness artifact with SHA-1 algorithm and hash "H". -/
def c10Ota : OtaArtifact :=
  ⟨"21A100", ∅, "17.0", "ios", "A", "U", none, ∅, "H", "SHA-1", 0,
    ArtifactProcessingState.INDEXED⟩

/-- C10 witness artifact with a non-SHA-1 algorithm. -/
def c10OtaMd5 : OtaArtifact :=
  { c10Ota with hash_algorithm := "MD5" }

theorem C10_check_ota_hash_witness :
    check_ota_hash (fun _ => "H") c10OtaMd5 [0] =
      .error "Unexpected hash-algo: MD5" ∧
    (check_ota_hash (fun _ => "H") c10Ota [0] = .ok true ↔
      (fun _ : List Nat => "H") [0] = c10Ota.hash) :=
  ⟨(C10_check_ota_hash (fun _ => "H") c10OtaMd5).1 (by decide) [0],
   (C10_check_ota_hash (fun _ => "H") c10Ota).2 (by decide) [0]⟩
